import Mathlib

/-!
Verification of the impact-estimation module and the analysis-response
parser of the peakinfer-vscode extension.

The definitions below are a shallow embedding of the TypeScript source:

* `src/src/views/quickStartView.ts` — `MODEL_PRICING`,
  `ImpactCalculator.normalizeModelName`, `getModelPrice`,
  `getRecommendedModel`, `getBaseEstimateFromSeverity`,
  `estimateSavingsForIssue`, `calculateImpactSummary`,
  `generateSuggestedActions`.
* `src/unnamed/part_000` — the `AnalysisRunner` data model (`Issue`,
  `InferencePoint`, `AnalysisResult`) and `parseAnalysisResponse`.

JavaScript numbers are modelled as exact rationals (`ℚ`); all the prices
and workload constants are decimal fractions, and every claim checked
here is about values where the binary floating-point computation and the
exact rational computation round to the same two-decimal result.
JavaScript strings are Lean `String`s; `String.toLowerCase`/`trim`/
`includes`/`split` are modelled on ASCII content, which covers every
string the module manipulates.
-/

namespace PeakInfer

/-- Does the character list `l` start with `p`? -/
def charsStartWith : List Char → List Char → Bool
  | _, [] => true
  | [], _ :: _ => false
  | c :: cs, d :: ds => c == d && charsStartWith cs ds

/-- Does `sub` occur as a contiguous run inside `l`? -/
def charsContain (l sub : List Char) : Bool :=
  match l with
  | [] => sub.isEmpty
  | _ :: cs => charsStartWith l sub || charsContain cs sub

/-- JavaScript `String.prototype.includes`: substring containment. -/
def jsIncludes (s sub : String) : Bool :=
  charsContain s.data sub.data

/-- JavaScript `String.prototype.toLowerCase`, on the ASCII strings this
module manipulates. -/
def jsToLower (s : String) : String :=
  String.mk (s.data.map Char.toLower)

/-- JavaScript `String.prototype.trim`: strip leading and trailing
whitespace. -/
def jsTrim (s : String) : String :=
  String.mk (((s.data.dropWhile Char.isWhitespace).reverse.dropWhile
    Char.isWhitespace).reverse)

/-- JavaScript `Math.round`: round to nearest integer, ties toward +∞. -/
def jsRound (q : ℚ) : ℤ :=
  ⌊q + 1 / 2⌋

/-- `Math.round(x * 100) / 100` — rounding to two decimal places. -/
def round2 (q : ℚ) : ℚ :=
  (jsRound (q * 100) : ℚ) / 100

/-- `Math.round(x * 10) / 10` — rounding to one decimal place. -/
def round1 (q : ℚ) : ℚ :=
  (jsRound (q * 10) : ℚ) / 10

/-- `benchmark` field of an `Issue` (part_000, interface `Issue`). -/
structure Benchmark where
  yourValue : Option ℚ
  benchmarkValue : Option ℚ
  gap : Option String
deriving DecidableEq

/-- One detected problem (part_000, interface `Issue`).  The TypeScript
interface declares `type` and `severity` as string-literal unions, but
those are compile-time annotations only: values arrive from parsed JSON
unchecked, so they are modelled as arbitrary strings. -/
structure Issue where
  type : String
  severity : String
  title : String
  description : String
  impact : Option String
  fix : Option String
  benchmark : Option Benchmark
deriving DecidableEq

/-- `patterns` object of an inference point (part_000). -/
structure Patterns where
  streaming : Option Bool
  batching : Option Bool
  retries : Option Bool
  caching : Option Bool
  fallback : Option Bool
deriving DecidableEq

/-- One located LLM call site (part_000, interface `InferencePoint`).
A missing `id` in the raw JSON behaves exactly like the empty string
(both are falsy in `if (!point.id)`), so `id` is a plain string. -/
structure InferencePoint where
  id : String
  file : String
  line : ℤ
  column : Option ℤ
  provider : Option String
  model : Option String
  framework : Option String
  patterns : Patterns
  issues : List Issue
  confidence : ℚ
deriving DecidableEq

/-- `summary` of an `AnalysisResult` (part_000). -/
structure AnalysisSummary where
  totalPoints : ℕ
  criticalIssues : ℕ
  warnings : ℕ
  providers : List String
  models : List String
deriving DecidableEq

/-- One file's analysis outcome (part_000, interface `AnalysisResult`). -/
structure AnalysisResult where
  version : String
  file : String
  analyzedAt : String
  inferencePoints : List InferencePoint
  summary : AnalysisSummary
deriving DecidableEq

/-- A `{ input, output }` pricing entry, dollars per million tokens. -/
structure Price where
  input : ℚ
  output : ℚ
deriving DecidableEq

/-- `MODEL_PRICING` (quickStartView.ts, lines 295–330).  A JavaScript
`Record` with non-numeric string keys iterates in insertion order, so it
is modelled as an association list in declaration order. -/
def MODEL_PRICING : List (String × Price) :=
  [ ("gpt-4o", ⟨2.50, 10.00⟩),
    ("gpt-4o-mini", ⟨0.15, 0.60⟩),
    ("gpt-4-turbo", ⟨10.00, 30.00⟩),
    ("gpt-4", ⟨30.00, 60.00⟩),
    ("gpt-3.5-turbo", ⟨0.50, 1.50⟩),
    ("o1", ⟨15.00, 60.00⟩),
    ("o1-mini", ⟨3.00, 12.00⟩),
    ("o1-preview", ⟨15.00, 60.00⟩),
    ("o3-mini", ⟨1.10, 4.40⟩),
    ("claude-3-5-sonnet", ⟨3.00, 15.00⟩),
    ("claude-3-5-haiku", ⟨0.80, 4.00⟩),
    ("claude-3-opus", ⟨15.00, 75.00⟩),
    ("claude-3-sonnet", ⟨3.00, 15.00⟩),
    ("claude-3-haiku", ⟨0.25, 1.25⟩),
    ("claude-sonnet-4", ⟨3.00, 15.00⟩),
    ("claude-opus-4", ⟨15.00, 75.00⟩),
    ("gemini-2.0-flash", ⟨0.10, 0.40⟩),
    ("gemini-1.5-pro", ⟨1.25, 5.00⟩),
    ("gemini-1.5-flash", ⟨0.075, 0.30⟩),
    ("llama-3.1-405b", ⟨3.00, 3.00⟩),
    ("llama-3.1-70b", ⟨0.88, 0.88⟩),
    ("llama-3.1-8b", ⟨0.18, 0.18⟩),
    ("mistral-large", ⟨2.00, 6.00⟩),
    ("mistral-small", ⟨0.20, 0.60⟩),
    ("mixtral-8x7b", ⟨0.45, 0.45⟩) ]

/-- `SAVINGS_MULTIPLIERS` (quickStartView.ts, lines 346–351). -/
def SAVINGS_MULTIPLIERS : List (String × ℚ) :=
  [ ("cost", 1.0), ("latency", 0.3), ("throughput", 0.5), ("reliability", 0.2) ]

/-- `ImpactCalculator.normalizeModelName` (quickStartView.ts, 517–543). -/
def normalizeModelName (model : String) : String :=
  let normalized := jsTrim (jsToLower model)
  if jsIncludes normalized "gpt-4o-mini" then "gpt-4o-mini"
  else if jsIncludes normalized "gpt-4o" then "gpt-4o"
  else if jsIncludes normalized "gpt-4-turbo" then "gpt-4-turbo"
  else if jsIncludes normalized "gpt-4" then "gpt-4"
  else if jsIncludes normalized "gpt-3.5" then "gpt-3.5-turbo"
  else if jsIncludes normalized "claude-3-5-sonnet" || jsIncludes normalized "claude-3.5-sonnet"
    then "claude-3-5-sonnet"
  else if jsIncludes normalized "claude-3-5-haiku" || jsIncludes normalized "claude-3.5-haiku"
    then "claude-3-5-haiku"
  else if jsIncludes normalized "claude-3-opus" then "claude-3-opus"
  else if jsIncludes normalized "claude-3-sonnet" then "claude-3-sonnet"
  else if jsIncludes normalized "claude-3-haiku" then "claude-3-haiku"
  else if jsIncludes normalized "claude-sonnet-4" then "claude-sonnet-4"
  else if jsIncludes normalized "claude-opus-4" then "claude-opus-4"
  else if jsIncludes normalized "gemini-2" then "gemini-2.0-flash"
  else if jsIncludes normalized "gemini-1.5-pro" then "gemini-1.5-pro"
  else if jsIncludes normalized "gemini-1.5-flash" || jsIncludes normalized "gemini-flash"
    then "gemini-1.5-flash"
  else normalized

/-- `ImpactCalculator.getModelPrice` (quickStartView.ts, 509–512). -/
def getModelPrice (model : String) : Option Price :=
  MODEL_PRICING.lookup (normalizeModelName model)

/-- The static current-model → cheaper-alternative table inside
`getRecommendedModel` (quickStartView.ts, 552–563). -/
def recommendationTable : List (String × String) :=
  [ ("gpt-4", "gpt-4o-mini"),
    ("gpt-4-turbo", "gpt-4o-mini"),
    ("gpt-4o", "gpt-4o-mini"),
    ("claude-3-opus", "claude-3-5-haiku"),
    ("claude-opus-4", "claude-3-5-haiku"),
    ("claude-3-5-sonnet", "claude-3-5-haiku"),
    ("claude-sonnet-4", "claude-3-5-haiku"),
    ("gemini-1.5-pro", "gemini-1.5-flash"),
    ("o1", "o1-mini"),
    ("o1-preview", "o1-mini") ]

/-- `ImpactCalculator.getRecommendedModel` (quickStartView.ts, 548–576).
The fix-text scan iterates `Object.keys(MODEL_PRICING)` in insertion
order and returns the first key contained in the lowercased fix text;
only when the scan finds nothing (or there is no truthy fix text) is the
static table consulted. -/
def getRecommendedModel (currentModel : String) (issue : Issue) : Option String :=
  let normalizedCurrent := normalizeModelName currentModel
  let viaFix : Option String :=
    match issue.fix with
    | some fix =>
      if fix ≠ "" then
        (MODEL_PRICING.find? fun kv => jsIncludes (jsToLower fix) kv.1).map Prod.fst
      else none
    | none => none
  match viaFix with
  | some m => some m
  | none => recommendationTable.lookup normalizedCurrent

/-- `ImpactCalculator.getBaseEstimateFromSeverity` (quickStartView.ts, 581–594). -/
def getBaseEstimateFromSeverity (severity : String) : ℚ :=
  match severity with
  | "critical" => 200
  | "high" => 100
  | "medium" => 50
  | "low" => 20
  | _ => 10

/-- The fixed workload constants `DEFAULT_MONTHLY_CALLS`,
`DEFAULT_AVG_INPUT_TOKENS`, `DEFAULT_AVG_OUTPUT_TOKENS`
(quickStartView.ts, 392–394). -/
def DEFAULT_MONTHLY_CALLS : ℚ := 10000
def DEFAULT_AVG_INPUT_TOKENS : ℚ := 500
def DEFAULT_AVG_OUTPUT_TOKENS : ℚ := 200

/-- Monthly dollar cost of the fixed assumed workload under one price
entry — the shared sub-expression of `estimateSavingsForIssue`
(quickStartView.ts, 471–480). -/
def monthlyCostFor (price : Price) : ℚ :=
  (DEFAULT_MONTHLY_CALLS * DEFAULT_AVG_INPUT_TOKENS / 1000000) * price.input
    + (DEFAULT_MONTHLY_CALLS * DEFAULT_AVG_OUTPUT_TOKENS / 1000000) * price.output

/-- The record returned by `estimateSavingsForIssue` (quickStartView.ts,
interface `IssueWithSavings`, 362–369). -/
structure IssueWithSavings where
  issue : Issue
  point : InferencePoint
  estimatedMonthlySavings : ℚ
  savingsPercentage : ℚ
  currentModel : Option String
  recommendedModel : Option String
deriving DecidableEq

/-- `point.model?.toLowerCase() || ''` (quickStartView.ts, 461). -/
def currentModelOf (point : InferencePoint) : String :=
  (point.model.map jsToLower).getD ""

/-- `ImpactCalculator.estimateSavingsForIssue` (quickStartView.ts, 456–504). -/
def estimateSavingsForIssue (issue : Issue) (point : InferencePoint) : IssueWithSavings :=
  let currentModel := currentModelOf point
  let resultOf : ℚ → ℚ → Option String → IssueWithSavings :=
    fun savings percentage recommended =>
      { issue := issue
        point := point
        estimatedMonthlySavings := round2 savings
        savingsPercentage := round1 percentage
        currentModel := point.model
        recommendedModel := recommended }
  if issue.type = "cost" ∧ currentModel ≠ "" then
    let currentPrice := getModelPrice currentModel
    let recommendedModel := getRecommendedModel currentModel issue
    let recommendedPrice := recommendedModel.bind getModelPrice
    match currentPrice, recommendedPrice with
    | some cp, some rp =>
      let currentMonthlyCost := monthlyCostFor cp
      let recommendedMonthlyCost := monthlyCostFor rp
      let savings := max 0 (currentMonthlyCost - recommendedMonthlyCost)
      let percentage :=
        if currentMonthlyCost > 0 then
          (currentMonthlyCost - recommendedMonthlyCost) / currentMonthlyCost * 100
        else 0
      resultOf savings percentage recommendedModel
    | _, _ => resultOf 0 0 recommendedModel
  else
    let baseEstimate := getBaseEstimateFromSeverity issue.severity
    let multiplier := (SAVINGS_MULTIPLIERS.lookup issue.type).getD 0.1
    resultOf (baseEstimate * multiplier) (multiplier * 100) none

/-- One cell of the per-category breakdown (quickStartView.ts, 371–376). -/
structure CategoryCell where
  count : ℕ
  totalSavings : ℚ
deriving DecidableEq

/-- `CategoryBreakdown` (quickStartView.ts, 371–376). -/
structure CategoryBreakdown where
  cost : CategoryCell
  latency : CategoryCell
  throughput : CategoryCell
  reliability : CategoryCell
deriving DecidableEq

/-- `ImpactSummary` (quickStartView.ts, 353–360). -/
structure ImpactSummary where
  estimatedMonthlySavings : ℚ
  estimatedMonthlyWaste : ℚ
  latencyIssueCount : ℕ
  reliabilityGapCount : ℕ
  topIssuesBySavings : List IssueWithSavings
  categoryBreakdown : CategoryBreakdown
deriving DecidableEq

/-- The `(issue, point)` pairs visited by the nested loops of
`calculateImpactSummary` (quickStartView.ts, 411–431), in iteration
order. -/
def issuePointPairs (results : List AnalysisResult) : List (Issue × InferencePoint) :=
  results.flatMap fun result =>
    result.inferencePoints.flatMap fun point =>
      point.issues.map fun issue => (issue, point)

/-- The `if (categoryBreakdown[category])` update of
`calculateImpactSummary` (quickStartView.ts, 417–422): only the four
declared categories have a (truthy) cell; any other `issue.type` leaves
the breakdown unchanged. -/
def updateBreakdown (bd : CategoryBreakdown) (type : String) (savings : ℚ) :
    CategoryBreakdown :=
  if type = "cost" then
    { bd with cost := ⟨bd.cost.count + 1, bd.cost.totalSavings + savings⟩ }
  else if type = "latency" then
    { bd with latency := ⟨bd.latency.count + 1, bd.latency.totalSavings + savings⟩ }
  else if type = "throughput" then
    { bd with throughput := ⟨bd.throughput.count + 1, bd.throughput.totalSavings + savings⟩ }
  else if type = "reliability" then
    { bd with reliability := ⟨bd.reliability.count + 1, bd.reliability.totalSavings + savings⟩ }
  else bd

/-- Ordering used by `issuesWithSavings.sort((a, b) => b.estimatedMonthlySavings -
a.estimatedMonthlySavings)` (quickStartView.ts, 435): `a` may come
before `b` when its savings are at least `b`'s. -/
def savingsGE (a b : IssueWithSavings) : Prop :=
  b.estimatedMonthlySavings ≤ a.estimatedMonthlySavings

instance : DecidableRel savingsGE := fun a b =>
  inferInstanceAs (Decidable (b.estimatedMonthlySavings ≤ a.estimatedMonthlySavings))

instance : IsTotal IssueWithSavings savingsGE :=
  ⟨fun a b => (le_total b.estimatedMonthlySavings a.estimatedMonthlySavings).imp id id⟩

instance : IsTrans IssueWithSavings savingsGE :=
  ⟨fun _ _ _ h1 h2 => le_trans h2 h1⟩

/-- JavaScript `Array.prototype.sort` with the descending-savings
comparator.  Since ES2019 the sort is required to be stable; a stable
sort is uniquely determined by the comparator, so it is modelled by
insertion sort, which is stable for `savingsGE`. -/
def sortBySavingsDesc (l : List IssueWithSavings) : List IssueWithSavings :=
  l.insertionSort savingsGE

/-- `ImpactCalculator.calculateImpactSummary` (quickStartView.ts, 399–451). -/
def calculateImpactSummary (results : List AnalysisResult) : ImpactSummary :=
  let pairs := issuePointPairs results
  let issuesWithSavings := pairs.map fun ip => estimateSavingsForIssue ip.1 ip.2
  let categoryBreakdown := pairs.foldl
    (fun bd ip =>
      updateBreakdown bd ip.1.type (estimateSavingsForIssue ip.1 ip.2).estimatedMonthlySavings)
    ⟨⟨0, 0⟩, ⟨0, 0⟩, ⟨0, 0⟩, ⟨0, 0⟩⟩
  let latencyIssueCount := pairs.countP fun ip => ip.1.type == "latency"
  let reliabilityGapCount := pairs.countP fun ip => ip.1.type == "reliability"
  let sorted := sortBySavingsDesc issuesWithSavings
  let estimatedMonthlyWaste := sorted.foldl (fun sum item => sum + item.estimatedMonthlySavings) 0
  { estimatedMonthlySavings := estimatedMonthlyWaste
    estimatedMonthlyWaste := estimatedMonthlyWaste
    latencyIssueCount := latencyIssueCount
    reliabilityGapCount := reliabilityGapCount
    topIssuesBySavings := sorted.take 5
    categoryBreakdown := categoryBreakdown }

/-- `SuggestedAction` (quickStartView.ts, 378–385).  The `args` field is
never populated anywhere in the module and is omitted. -/
structure SuggestedAction where
  title : String
  description : String
  type : String
  priority : String
  command : Option String
deriving DecidableEq

/-- JavaScript `s.split('/')`. -/
def jsSplitOnSlash (s : String) : List String :=
  (s.data.foldr
    (fun c groups =>
      if c == '/' then [] :: groups
      else
        match groups with
        | g :: gs => (c :: g) :: gs
        | [] => [[c]])
    [[]]).map String.mk

/-- `topIssue.point.file.split('/').pop()` (quickStartView.ts, 608). -/
def jsPathLastComponent (s : String) : String :=
  (jsSplitOnSlash s).getLastD ""

/-- JavaScript `Number.prototype.toFixed(0)`: round to the nearest
integer, ties toward the larger candidate, and render in decimal. -/
def jsToFixed0 (q : ℚ) : String :=
  toString (jsRound q)

/-- `ImpactCalculator.generateSuggestedActions` (quickStartView.ts, 599–659). -/
def generateSuggestedActions (results : List AnalysisResult) : List SuggestedAction :=
  let impactSummary := calculateImpactSummary results
  let actions : List SuggestedAction := []
  let actions :=
    match impactSummary.topIssuesBySavings with
    | topIssue :: _ =>
      if topIssue.estimatedMonthlySavings > 50 then
        actions ++
          [{ title := "Fix top issue in " ++ jsPathLastComponent topIssue.point.file
             description :=
               "Potential savings: $" ++ jsToFixed0 topIssue.estimatedMonthlySavings ++ "/month"
             type := "fix"
             priority := "high"
             command := none }]
      else actions
    | [] => actions
  let actions :=
    if impactSummary.reliabilityGapCount > 0 then
      actions ++
        [{ title := "Review " ++ toString impactSummary.reliabilityGapCount ++
             " reliability gap(s)"
           description := "Missing retry logic or error handling detected"
           type := "fix"
           priority := "high"
           command := none }]
    else actions
  let actions :=
    if impactSummary.latencyIssueCount > 0 then
      actions ++
        [{ title := "Optimize " ++ toString impactSummary.latencyIssueCount ++
             " latency issue(s)"
           description := "Consider streaming or batching to reduce latency"
           type := "fix"
           priority := "medium"
           command := none }]
    else actions
  let analyzedFiles := (results.map fun r => r.file).eraseDups
  let actions :=
    if analyzedFiles.length = 1 then
      actions ++
        [{ title := "Analyze entire workspace"
           description := "Find issues across all files with LLM code"
           type := "analyze"
           priority := "medium"
           command := some "peakinfer.analyzeWorkspace" }]
    else actions
  let actions :=
    if impactSummary.estimatedMonthlyWaste > 100 then
      actions ++
        [{ title := "Learn about model selection"
           description := "Best practices for choosing the right model"
           type := "learn"
           priority := "low"
           command := none }]
    else actions
  actions

/-- The JSON object accepted by `parseAnalysisResponse` after
`JSON.parse` succeeds (part_000, line 247–248).  `inferencePoints` is
`none` when the field is absent, modelling `parsed.inferencePoints || []`. -/
structure ParsedPayload where
  inferencePoints : Option (List InferencePoint)
deriving DecidableEq

/-- A truthy optional string: `none` and `some ""` are both falsy. -/
def truthyString : Option String → Option String
  | some s => if s = "" then none else some s
  | none => none

/-- `AnalysisRunner.parseAnalysisResponse` (part_000, 236–304).  The
`JSON.parse`/shape step is abstracted into the `parsed` argument:
`none` stands for a response string on which extraction or `JSON.parse`
throws (the `catch` branch); `some payload` for a successfully parsed
object.  `now` is the timestamp `new Date().toISOString()`, passed
explicitly.  The function never throws: the `catch` branch returns an
empty result. -/
def parseAnalysisResponse (fileName now : String) (parsed : Option ParsedPayload) :
    AnalysisResult :=
  match parsed with
  | none =>
    { version := "1.0"
      file := fileName
      analyzedAt := now
      inferencePoints := []
      summary := ⟨0, 0, 0, [], []⟩ }
  | some payload =>
    let raw := payload.inferencePoints.getD []
    let inferencePoints := raw.map fun point =>
      { point with
        file := fileName
        id := if point.id = "" then fileName ++ ":" ++ toString point.line else point.id }
    let providers := (inferencePoints.filterMap fun pt => truthyString pt.provider).eraseDups
    let models := (inferencePoints.filterMap fun pt => truthyString pt.model).eraseDups
    let allIssues := inferencePoints.flatMap fun pt => pt.issues
    let criticalIssues := allIssues.countP fun i => i.severity == "critical"
    let warnings := allIssues.countP fun i => i.severity == "high" || i.severity == "medium"
    { version := "1.0"
      file := fileName
      analyzedAt := now
      inferencePoints := inferencePoints
      summary :=
        { totalPoints := inferencePoints.length
          criticalIssues := criticalIssues
          warnings := warnings
          providers := providers
          models := models } }

/-! ### Concrete inputs used in the claim theorems -/

/-- A critical cost issue with no fix text (spec §8 scenario). -/
def gpt4CostIssue : Issue :=
  { type := "cost", severity := "critical", title := "Expensive model"
    description := "gpt-4 is overkill here", impact := none, fix := none, benchmark := none }

/-- An inference point whose model is `"gpt-4"`. -/
def gpt4Point : InferencePoint :=
  { id := "app.ts:3", file := "src/app.ts", line := 3, column := none
    provider := some "openai", model := some "gpt-4", framework := none
    patterns := ⟨none, none, none, none, none⟩, issues := [gpt4CostIssue], confidence := 0.9 }

/-- A critical cost issue (used with a model the pricing table cannot
resolve). -/
def unresolvableCostIssue : Issue :=
  { type := "cost", severity := "critical", title := "Costly call"
    description := "d", impact := none, fix := none, benchmark := none }

/-- A point whose model name is non-empty but matches no normalizer rule
and no pricing-table key. -/
def unresolvedModelPoint : InferencePoint :=
  { id := "x.ts:1", file := "x.ts", line := 1, column := none
    provider := none, model := some "acme-llm-7", framework := none
    patterns := ⟨none, none, none, none, none⟩, issues := [unresolvableCostIssue]
    confidence := 0.5 }

/-- A high-severity latency issue. -/
def highLatencyIssue : Issue :=
  { type := "latency", severity := "high", title := "No streaming"
    description := "d", impact := none, fix := none, benchmark := none }

/-- A medium-severity reliability issue. -/
def mediumReliabilityIssue : Issue :=
  { type := "reliability", severity := "medium", title := "No retries"
    description := "d", impact := none, fix := none, benchmark := none }

/-- A low-severity throughput issue. -/
def lowThroughputIssue : Issue :=
  { type := "throughput", severity := "low", title := "No batching"
    description := "d", impact := none, fix := none, benchmark := none }

/-- A point with no model name at all. -/
def noModelPoint : InferencePoint :=
  { id := "y.ts:2", file := "y.ts", line := 2, column := none
    provider := none, model := none, framework := none
    patterns := ⟨none, none, none, none, none⟩, issues := [], confidence := 0.5 }

/-- Evaluation lemma: the pricing table resolves `"gpt-4"`. -/
theorem getModelPrice_gpt4 : getModelPrice "gpt-4" = some ⟨30.00, 60.00⟩ := rfl

/-- Evaluation lemma: the pricing table resolves `"gpt-4o-mini"`. -/
theorem getModelPrice_gpt4oMini : getModelPrice "gpt-4o-mini" = some ⟨0.15, 0.60⟩ := rfl

/-! ### C1 -/

/-- C1: on a critical cost issue for model `"gpt-4"` with no fix text,
the current price resolves to `{30, 60}`, the recommended model is
`"gpt-4o-mini"` at `{0.15, 0.60}`, the fixed workload costs $270/month
currently versus $1.95/month recommended, and the estimated monthly
savings are exactly $268.05. -/
theorem c1_gpt4_savings_268_05 :
    getModelPrice (currentModelOf gpt4Point) = some ⟨30.00, 60.00⟩ ∧
    getRecommendedModel (currentModelOf gpt4Point) gpt4CostIssue = some "gpt-4o-mini" ∧
    getModelPrice "gpt-4o-mini" = some ⟨0.15, 0.60⟩ ∧
    monthlyCostFor ⟨30.00, 60.00⟩ = 270 ∧
    monthlyCostFor ⟨0.15, 0.60⟩ = 1.95 ∧
    (estimateSavingsForIssue gpt4CostIssue gpt4Point).estimatedMonthlySavings = 268.05 ∧
    (estimateSavingsForIssue gpt4CostIssue gpt4Point).recommendedModel = some "gpt-4o-mini" := by
  refine ⟨rfl, by decide, rfl, ?_, ?_, ?_, ?_⟩
  · norm_num [monthlyCostFor, DEFAULT_MONTHLY_CALLS, DEFAULT_AVG_INPUT_TOKENS,
      DEFAULT_AVG_OUTPUT_TOKENS]
  · norm_num [monthlyCostFor, DEFAULT_MONTHLY_CALLS, DEFAULT_AVG_INPUT_TOKENS,
      DEFAULT_AVG_OUTPUT_TOKENS]
  · have h1 : currentModelOf gpt4Point = "gpt-4" := by decide
    have h3 : getRecommendedModel "gpt-4" gpt4CostIssue = some "gpt-4o-mini" := by decide
    simp only [estimateSavingsForIssue, h1, getModelPrice_gpt4, h3, getModelPrice_gpt4oMini,
      Option.bind]
    norm_num +decide [gpt4CostIssue, monthlyCostFor, round2, jsRound,
      DEFAULT_MONTHLY_CALLS, DEFAULT_AVG_INPUT_TOKENS, DEFAULT_AVG_OUTPUT_TOKENS]
  · have h1 : currentModelOf gpt4Point = "gpt-4" := by decide
    have h3 : getRecommendedModel "gpt-4" gpt4CostIssue = some "gpt-4o-mini" := by decide
    simp only [estimateSavingsForIssue, h1, getModelPrice_gpt4, h3, getModelPrice_gpt4oMini,
      Option.bind]
    norm_num +decide [gpt4CostIssue]

/-! ### C6 -/

/-- C6: aggregating an empty sequence of analysis results yields an
impact summary whose waste, latency count, reliability count, and every
per-category count and savings sum are zero, and whose top-issues list
is empty. -/
theorem c6_empty_results_zero_summary :
    calculateImpactSummary [] =
      { estimatedMonthlySavings := 0
        estimatedMonthlyWaste := 0
        latencyIssueCount := 0
        reliabilityGapCount := 0
        topIssuesBySavings := []
        categoryBreakdown := ⟨⟨0, 0⟩, ⟨0, 0⟩, ⟨0, 0⟩, ⟨0, 0⟩⟩ } := rfl

/-! ### C4 -/

/-- C4: for every response on which JSON extraction fails, the parser
returns a result with no inference points and all summary counters at
zero (the parse error is caught, not propagated — the function is
total); and a successfully parsed `{"inferencePoints": []}` payload
yields the same all-zero result. -/
theorem c4_parse_failure_empty_result (fileName now : String) :
    parseAnalysisResponse fileName now none =
      { version := "1.0", file := fileName, analyzedAt := now, inferencePoints := []
        summary := ⟨0, 0, 0, [], []⟩ } ∧
    parseAnalysisResponse fileName now (some ⟨some []⟩) =
      { version := "1.0", file := fileName, analyzedAt := now, inferencePoints := []
        summary := ⟨0, 0, 0, [], []⟩ } :=
  ⟨rfl, rfl⟩

/-! ### C3 -/

/-- A raw parsed point carrying an out-of-enumeration severity and an
out-of-range confidence, as `JSON.parse` could deliver it. -/
def outOfRangePoint : InferencePoint :=
  { id := "", file := "", line := 7, column := none
    provider := none, model := none, framework := none
    patterns := ⟨none, none, none, none, none⟩
    issues := [{ type := "cost", severity := "bogus", title := "t", description := "d"
                 impact := none, fix := none, benchmark := none }]
    confidence := 2 }

/-- C3 counterexample: the parser accepts a point whose severity is
outside `{critical, high, medium, low}` and whose confidence is outside
`[0, 1]`, and returns it unchanged — it neither rejects nor coerces. -/
theorem c3_counterexample_no_validation :
    ∃ pt ∈ (parseAnalysisResponse "f.ts" "t0" (some ⟨some [outOfRangePoint]⟩)).inferencePoints,
      1 < pt.confidence ∧
        ∃ i ∈ pt.issues, i.severity ∉ (["critical", "high", "medium", "low"] : List String) := by
  refine ⟨_, List.mem_cons_self _ _, ?_, _, List.mem_cons_self _ _, by decide⟩
  show (1 : ℚ) < 2
  norm_num

/-- C3 amended: the parser performs no validation or coercion of
severity or confidence; every parsed inference point is passed through
to the returned result with its confidence and its issues' severities
unchanged (only `file` and a missing `id` are filled in). -/
theorem c3_amended_passthrough (fileName now : String) (payload : ParsedPayload) :
    (parseAnalysisResponse fileName now (some payload)).inferencePoints.map
        (fun pt => (pt.confidence, pt.issues.map Issue.severity)) =
      (payload.inferencePoints.getD []).map
        (fun pt => (pt.confidence, pt.issues.map Issue.severity)) := by
  simp only [parseAnalysisResponse, List.map_map]
  rfl

/-! ### C2 -/

/-- C2 counterexample: a critical cost issue on a point whose model
name (`"acme-llm-7"`) is non-empty but unresolvable yields estimated
savings 0, not the severity-based estimate 200 the claim predicts. -/
theorem c2_counterexample_unresolvable_cost_model :
    (estimateSavingsForIssue unresolvableCostIssue unresolvedModelPoint).estimatedMonthlySavings
        = 0 ∧
    round2 (getBaseEstimateFromSeverity "critical" *
        ((SAVINGS_MULTIPLIERS.lookup "cost").getD 0.1)) = 200 ∧
    (0 : ℚ) ≠ 200 := by
  refine ⟨?_, ?_, by norm_num⟩
  · have h1 : currentModelOf unresolvedModelPoint = "acme-llm-7" := by decide
    have h2 : getModelPrice "acme-llm-7" = none := rfl
    simp only [estimateSavingsForIssue, h1, h2, Option.bind]
    norm_num +decide [unresolvableCostIssue, round2, jsRound]
  · norm_num +decide [round2, jsRound, getBaseEstimateFromSeverity, SAVINGS_MULTIPLIERS,
      List.lookup]

/-- C2 amended: for every issue whose category is not `"cost"`, or
whose point carries an empty or absent model name, the estimated
savings equal `severityBase(severity) * categoryMultiplier(category)`
rounded to two decimals, with severityBase critical=200, high=100,
medium=50, low=20, other=10 and multiplier cost=1.0, latency=0.3,
throughput=0.5, reliability=0.2 (default 0.1).  A cost issue with a
non-empty but unresolvable model instead yields savings 0. -/
theorem c2_amended_severity_base_estimate (issue : Issue) (point : InferencePoint)
    (h : issue.type ≠ "cost" ∨ currentModelOf point = "") :
    (estimateSavingsForIssue issue point).estimatedMonthlySavings =
      round2 (getBaseEstimateFromSeverity issue.severity *
        ((SAVINGS_MULTIPLIERS.lookup issue.type).getD 0.1)) := by
  have hcond : ¬(issue.type = "cost" ∧ currentModelOf point ≠ "") := by
    rcases h with h | h
    · exact fun hc => h hc.1
    · exact fun hc => hc.2 h
  simp only [estimateSavingsForIssue, if_neg hcond]

/-- Witness for the amended C2: the four particular table entries named
by the claim, plus critical/cost on a model-less point. -/
theorem c2_amended_witness :
    (estimateSavingsForIssue { unresolvableCostIssue with severity := "critical" }
        noModelPoint).estimatedMonthlySavings = 200 ∧
    (estimateSavingsForIssue highLatencyIssue noModelPoint).estimatedMonthlySavings = 30 ∧
    (estimateSavingsForIssue mediumReliabilityIssue noModelPoint).estimatedMonthlySavings = 10 ∧
    (estimateSavingsForIssue lowThroughputIssue noModelPoint).estimatedMonthlySavings = 10 := by
  refine ⟨?_, ?_, ?_, ?_⟩
  · rw [c2_amended_severity_base_estimate _ _ (Or.inr (by decide))]
    show round2 ((200 : ℚ) * 1.0) = 200
    norm_num [round2, jsRound]
  · rw [c2_amended_severity_base_estimate _ _ (Or.inr (by decide))]
    show round2 ((100 : ℚ) * 0.3) = 30
    norm_num [round2, jsRound]
  · rw [c2_amended_severity_base_estimate _ _ (Or.inr (by decide))]
    show round2 ((50 : ℚ) * 0.2) = 10
    norm_num [round2, jsRound]
  · rw [c2_amended_severity_base_estimate _ _ (Or.inr (by decide))]
    show round2 ((20 : ℚ) * 0.5) = 10
    norm_num [round2, jsRound]

/-! ### C8 -/

/-- `round2` of a non-negative quantity is non-negative. -/
theorem round2_nonneg {q : ℚ} (h : 0 ≤ q) : 0 ≤ round2 q := by
  unfold round2 jsRound
  have : (0 : ℤ) ≤ ⌊q * 100 + 1 / 2⌋ := by
    rw [Int.le_floor]
    positivity
  positivity

/-- C8: for a cost issue on a point with a non-empty model name, the
estimated savings are 0 whenever either the current or the recommended
price fails to resolve; when both resolve they equal the two-decimal
rounding of the non-negative monthly-cost difference under the fixed
workload; and in every case the returned savings are non-negative. -/
theorem c8_cost_savings_nonneg (issue : Issue) (point : InferencePoint)
    (htype : issue.type = "cost") (hmodel : currentModelOf point ≠ "") :
    ((getModelPrice (currentModelOf point) = none ∨
        (getRecommendedModel (currentModelOf point) issue).bind getModelPrice = none) →
      (estimateSavingsForIssue issue point).estimatedMonthlySavings = 0) ∧
    (∀ cp rp, getModelPrice (currentModelOf point) = some cp →
      (getRecommendedModel (currentModelOf point) issue).bind getModelPrice = some rp →
      (estimateSavingsForIssue issue point).estimatedMonthlySavings =
        round2 (max 0 (monthlyCostFor cp - monthlyCostFor rp))) ∧
    0 ≤ (estimateSavingsForIssue issue point).estimatedMonthlySavings := by
  have hcond : issue.type = "cost" ∧ currentModelOf point ≠ "" := ⟨htype, hmodel⟩
  refine ⟨?_, ?_, ?_⟩
  · intro hnone
    simp only [estimateSavingsForIssue, if_pos hcond]
    rcases hnone with hn | hn <;> rw [hn]
    · simp only [round2, jsRound]
      norm_num
    · cases hc : getModelPrice (currentModelOf point) <;>
        simp only [round2, jsRound] <;> norm_num
  · intro cp rp hcp hrp
    simp only [estimateSavingsForIssue, if_pos hcond, hcp, hrp]
  · simp only [estimateSavingsForIssue, if_pos hcond]
    cases hc : getModelPrice (currentModelOf point) with
    | none =>
      simp only [round2, jsRound]
      norm_num
    | some cp =>
      cases hr : (getRecommendedModel (currentModelOf point) issue).bind getModelPrice with
      | none =>
        simp only [round2, jsRound]
        norm_num
      | some rp =>
        exact round2_nonneg (le_max_left 0 _)

/-- Witness for C8 at the `"gpt-4"` scenario: both prices resolve, the
savings equal the rounded workload-cost difference, and they are
non-negative. -/
theorem c8_witness :
    (estimateSavingsForIssue gpt4CostIssue gpt4Point).estimatedMonthlySavings =
      round2 (max 0 (monthlyCostFor ⟨30.00, 60.00⟩ - monthlyCostFor ⟨0.15, 0.60⟩)) ∧
    0 ≤ (estimateSavingsForIssue gpt4CostIssue gpt4Point).estimatedMonthlySavings :=
  ⟨(c8_cost_savings_nonneg gpt4CostIssue gpt4Point rfl (by decide)).2.1
      ⟨30.00, 60.00⟩ ⟨0.15, 0.60⟩ rfl rfl,
    (c8_cost_savings_nonneg gpt4CostIssue gpt4Point rfl (by decide)).2.2⟩

/-! ### C7 -/

/-- The disjunction of the substring conditions tested by
`normalizeModelName`, on the already lowercased/trimmed input. -/
def anyNormalizerRuleMatches (n : String) : Bool :=
  jsIncludes n "gpt-4o-mini" || jsIncludes n "gpt-4o" || jsIncludes n "gpt-4-turbo" ||
  jsIncludes n "gpt-4" || jsIncludes n "gpt-3.5" ||
  jsIncludes n "claude-3-5-sonnet" || jsIncludes n "claude-3.5-sonnet" ||
  jsIncludes n "claude-3-5-haiku" || jsIncludes n "claude-3.5-haiku" ||
  jsIncludes n "claude-3-opus" || jsIncludes n "claude-3-sonnet" ||
  jsIncludes n "claude-3-haiku" || jsIncludes n "claude-sonnet-4" ||
  jsIncludes n "claude-opus-4" || jsIncludes n "gemini-2" ||
  jsIncludes n "gemini-1.5-pro" || jsIncludes n "gemini-1.5-flash" ||
  jsIncludes n "gemini-flash"

set_option maxHeartbeats 2000000 in
/-- C7: the model-name normalizer is a total function; when no
substring rule matches the lowercased/trimmed input it returns that
input unchanged; when some rule matches, the returned key is present in
the pricing table; and an input containing `"gpt-4o-mini"` normalizes
to `"gpt-4o-mini"`, not to its prefix `"gpt-4o"`. -/
theorem c7_normalizer_canonical_or_id (s : String) :
    (anyNormalizerRuleMatches (jsTrim (jsToLower s)) = false →
      normalizeModelName s = jsTrim (jsToLower s)) ∧
    (anyNormalizerRuleMatches (jsTrim (jsToLower s)) = true →
      (MODEL_PRICING.lookup (normalizeModelName s)).isSome = true) ∧
    (jsIncludes (jsTrim (jsToLower s)) "gpt-4o-mini" = true →
      normalizeModelName s = "gpt-4o-mini") := by
  refine ⟨?_, ?_, ?_⟩
  · intro h
    simp only [anyNormalizerRuleMatches, Bool.or_eq_false_iff] at h
    obtain ⟨⟨⟨⟨⟨⟨⟨⟨⟨⟨⟨⟨⟨⟨⟨⟨⟨c1, c2⟩, c3⟩, c4⟩, c5⟩, c6⟩, c6b⟩, c7⟩, c7b⟩, c8⟩,
      c9⟩, c10⟩, c11⟩, c12⟩, c13⟩, c14⟩, c15⟩, c15b⟩ := h
    unfold normalizeModelName
    dsimp only
    rw [if_neg (ne_true_of_eq_false c1), if_neg (ne_true_of_eq_false c2),
      if_neg (ne_true_of_eq_false c3), if_neg (ne_true_of_eq_false c4),
      if_neg (ne_true_of_eq_false c5),
      if_neg (fun hh => Bool.false_ne_true (by rwa [c6, c6b] at hh)),
      if_neg (fun hh => Bool.false_ne_true (by rwa [c7, c7b] at hh)),
      if_neg (ne_true_of_eq_false c8), if_neg (ne_true_of_eq_false c9),
      if_neg (ne_true_of_eq_false c10), if_neg (ne_true_of_eq_false c11),
      if_neg (ne_true_of_eq_false c12), if_neg (ne_true_of_eq_false c13),
      if_neg (ne_true_of_eq_false c14),
      if_neg (fun hh => Bool.false_ne_true (by rwa [c15, c15b] at hh))]
  · intro h
    unfold normalizeModelName
    dsimp only
    by_cases h1 : jsIncludes (jsTrim (jsToLower s)) "gpt-4o-mini" = true
    case pos => rw [if_pos h1]; decide
    rw [if_neg h1]
    by_cases h2 : jsIncludes (jsTrim (jsToLower s)) "gpt-4o" = true
    case pos => rw [if_pos h2]; decide
    rw [if_neg h2]
    by_cases h3 : jsIncludes (jsTrim (jsToLower s)) "gpt-4-turbo" = true
    case pos => rw [if_pos h3]; decide
    rw [if_neg h3]
    by_cases h4 : jsIncludes (jsTrim (jsToLower s)) "gpt-4" = true
    case pos => rw [if_pos h4]; decide
    rw [if_neg h4]
    by_cases h5 : jsIncludes (jsTrim (jsToLower s)) "gpt-3.5" = true
    case pos => rw [if_pos h5]; decide
    rw [if_neg h5]
    by_cases h6 : (jsIncludes (jsTrim (jsToLower s)) "claude-3-5-sonnet" ||
        jsIncludes (jsTrim (jsToLower s)) "claude-3.5-sonnet") = true
    case pos => rw [if_pos h6]; decide
    rw [if_neg h6]
    by_cases h7 : (jsIncludes (jsTrim (jsToLower s)) "claude-3-5-haiku" ||
        jsIncludes (jsTrim (jsToLower s)) "claude-3.5-haiku") = true
    case pos => rw [if_pos h7]; decide
    rw [if_neg h7]
    by_cases h8 : jsIncludes (jsTrim (jsToLower s)) "claude-3-opus" = true
    case pos => rw [if_pos h8]; decide
    rw [if_neg h8]
    by_cases h9 : jsIncludes (jsTrim (jsToLower s)) "claude-3-sonnet" = true
    case pos => rw [if_pos h9]; decide
    rw [if_neg h9]
    by_cases h10 : jsIncludes (jsTrim (jsToLower s)) "claude-3-haiku" = true
    case pos => rw [if_pos h10]; decide
    rw [if_neg h10]
    by_cases h11 : jsIncludes (jsTrim (jsToLower s)) "claude-sonnet-4" = true
    case pos => rw [if_pos h11]; decide
    rw [if_neg h11]
    by_cases h12 : jsIncludes (jsTrim (jsToLower s)) "claude-opus-4" = true
    case pos => rw [if_pos h12]; decide
    rw [if_neg h12]
    by_cases h13 : jsIncludes (jsTrim (jsToLower s)) "gemini-2" = true
    case pos => rw [if_pos h13]; decide
    rw [if_neg h13]
    by_cases h14 : jsIncludes (jsTrim (jsToLower s)) "gemini-1.5-pro" = true
    case pos => rw [if_pos h14]; decide
    rw [if_neg h14]
    by_cases h15 : (jsIncludes (jsTrim (jsToLower s)) "gemini-1.5-flash" ||
        jsIncludes (jsTrim (jsToLower s)) "gemini-flash") = true
    case pos => rw [if_pos h15]; decide
    rw [if_neg h15]
    exfalso
    simp only [Bool.not_eq_true] at h1 h2 h3 h4 h5 h6 h7 h8 h9 h10 h11 h12 h13 h14 h15
    rw [Bool.or_eq_false_iff] at h6 h7 h15
    simp only [anyNormalizerRuleMatches, h1, h2, h3, h4, h5, h6.1, h6.2, h7.1, h7.2,
      h8, h9, h10, h11, h12, h13, h14, h15.1, h15.2, Bool.or_self,
      Bool.or_false, Bool.false_or] at h
    exact Bool.false_ne_true h
  · intro h
    unfold normalizeModelName
    dsimp only
    rw [if_pos h]

/-! ### C5 -/

/-- A list of naturals that are all 1 sums to the list's length. -/
theorem sum_map_ones {α : Type} (l : List α) (F : α → ℕ) (h : ∀ x ∈ l, F x = 1) :
    (l.map F).sum = l.length := by
  induction l with
  | nil => rfl
  | cons a t ih =>
    have ha := h a (List.mem_cons_self a t)
    have ht := ih fun x hx => h x (List.mem_cons_of_mem _ hx)
    simp [ha, ht]
    omega

/-- Inserting an element into a list commutes with filtering on an
exact-savings value: the inserted element lands in front of every
equal-savings element already present (the stability of
`orderedInsert` for the descending-savings order). -/
theorem filter_savings_orderedInsert (v : ℚ) (x : IssueWithSavings)
    (l : List IssueWithSavings) :
    ((l.orderedInsert savingsGE x).filter fun y => y.estimatedMonthlySavings == v) =
      (if x.estimatedMonthlySavings == v then [x] else []) ++
        (l.filter fun y => y.estimatedMonthlySavings == v) := by
  induction l with
  | nil =>
    simp only [List.orderedInsert_nil, List.filter_cons, List.filter_nil]
    by_cases hpx : x.estimatedMonthlySavings == v <;> simp [hpx]
  | cons b t ih =>
    rw [List.orderedInsert]
    by_cases hxb : savingsGE x b
    · rw [if_pos hxb]
      by_cases hpx : x.estimatedMonthlySavings == v <;>
        simp [List.filter_cons, hpx]
    · rw [if_neg hxb]
      by_cases hpx : x.estimatedMonthlySavings == v
      · have hlt : x.estimatedMonthlySavings < b.estimatedMonthlySavings :=
          lt_of_not_le hxb
        have hxv : x.estimatedMonthlySavings = v := by simpa using hpx
        have hpb : (b.estimatedMonthlySavings == v) = false := by
          simp only [beq_eq_false_iff_ne, ne_eq]
          intro hbv
          rw [hbv, hxv] at hlt
          exact lt_irrefl v hlt
        simp [List.filter_cons, hpx, hpb, ih]
      · simp [List.filter_cons, hpx, ih]

/-- The stable descending sort used for the top-issues list preserves,
for every savings value `v`, the subsequence of records whose savings
equal `v` — ties keep their original input order. -/
theorem filter_savings_sortBySavingsDesc (v : ℚ) (l : List IssueWithSavings) :
    ((sortBySavingsDesc l).filter fun y => y.estimatedMonthlySavings == v) =
      l.filter fun y => y.estimatedMonthlySavings == v := by
  induction l with
  | nil => rfl
  | cons a t ih =>
    unfold sortBySavingsDesc at *
    rw [List.insertionSort, filter_savings_orderedInsert, ih]
    by_cases hpa : a.estimatedMonthlySavings == v <;> simp [List.filter_cons, hpa]

/-- C5: when every analysis result contributes exactly one issue, the
top-issues list has size `min(N, 5)`, is sorted in descending order of
estimated savings, and is the 5-element prefix of a descending, stable
permutation of the per-issue records in iteration order (equal-savings
records keep their input order, witnessed by the filter equality for
every savings value). -/
theorem c5_top_issues_sorted_stable (results : List AnalysisResult)
    (h : ∀ r ∈ results, (r.inferencePoints.map fun p => p.issues.length).sum = 1) :
    ((calculateImpactSummary results).topIssuesBySavings).length = min results.length 5 ∧
    ((calculateImpactSummary results).topIssuesBySavings).Pairwise savingsGE ∧
    ∃ L : List IssueWithSavings,
      (calculateImpactSummary results).topIssuesBySavings = L.take 5 ∧
      L.Perm ((issuePointPairs results).map fun ip => estimateSavingsForIssue ip.1 ip.2) ∧
      L.Pairwise savingsGE ∧
      ∀ v : ℚ, (L.filter fun x => x.estimatedMonthlySavings == v) =
        (((issuePointPairs results).map fun ip => estimateSavingsForIssue ip.1 ip.2).filter
          fun x => x.estimatedMonthlySavings == v) := by
  have hpairs : (issuePointPairs results).length = results.length := by
    unfold issuePointPairs
    rw [List.length_flatMap]
    calc (results.map (List.length ∘ fun result => result.inferencePoints.flatMap
          fun point => point.issues.map fun issue => (issue, point))).sum
        = (results.map fun r => (r.inferencePoints.map fun p => p.issues.length).sum).sum := by
          congr 1
          refine List.map_congr_left fun r _ => ?_
          simp [List.length_flatMap, Function.comp_def]
      _ = results.length := by
          apply sum_map_ones
          exact h
  have htop : (calculateImpactSummary results).topIssuesBySavings =
      (sortBySavingsDesc ((issuePointPairs results).map
        fun ip => estimateSavingsForIssue ip.1 ip.2)).take 5 := rfl
  have hsorted : (sortBySavingsDesc ((issuePointPairs results).map
      fun ip => estimateSavingsForIssue ip.1 ip.2)).Pairwise savingsGE :=
    List.sorted_insertionSort savingsGE _
  refine ⟨?_, ?_, ?_⟩
  · rw [htop, List.length_take, sortBySavingsDesc, List.length_insertionSort,
      List.length_map, hpairs, Nat.min_comm]
  · rw [htop]
    exact List.Pairwise.sublist (List.take_sublist 5 _) hsorted
  · refine ⟨sortBySavingsDesc ((issuePointPairs results).map
      fun ip => estimateSavingsForIssue ip.1 ip.2), htop, ?_, hsorted, ?_⟩
    · exact List.perm_insertionSort savingsGE _
    · intro v
      exact filter_savings_sortBySavingsDesc v _

/-- Witness for C5 at a concrete two-result input (two single-issue
results with equal severity-based savings): the top list has length 2,
is sorted, and ties keep input order. -/
theorem c5_witness :
    ((calculateImpactSummary [⟨"1.0", "a.ts", "t", [{ noModelPoint with
        issues := [highLatencyIssue] }], ⟨1, 0, 1, [], []⟩⟩,
      ⟨"1.0", "b.ts", "t", [{ noModelPoint with
        issues := [highLatencyIssue] }], ⟨1, 0, 1, [], []⟩⟩]).topIssuesBySavings).length =
      min 2 5 :=
  (c5_top_issues_sorted_stable _ (by decide)).1

/-! ### C9 -/

set_option maxHeartbeats 2000000 in
/-- C9: `generateSuggestedActions` is exactly five independent rules
applied in a fixed order — a high-priority fix-top-issue action iff the
top-savings issue exceeds $50/month, a high-priority reliability review
iff the reliability-gap count is positive, a medium-priority latency
action iff the latency-issue count is positive, a medium-priority
analyze-workspace action iff exactly one distinct file was analyzed,
and a low-priority learning action iff the total estimated waste
exceeds $100/month — emitted in that rule order. -/
theorem c9_suggested_action_rules (results : List AnalysisResult) :
    generateSuggestedActions results =
      (match (calculateImpactSummary results).topIssuesBySavings with
       | topIssue :: _ =>
         if topIssue.estimatedMonthlySavings > 50 then
           [{ title := "Fix top issue in " ++ jsPathLastComponent topIssue.point.file
              description := "Potential savings: $" ++
                jsToFixed0 topIssue.estimatedMonthlySavings ++ "/month"
              type := "fix", priority := "high", command := none }]
         else []
       | [] => []) ++
      (if (calculateImpactSummary results).reliabilityGapCount > 0 then
         [{ title := "Review " ++ toString (calculateImpactSummary results).reliabilityGapCount
              ++ " reliability gap(s)"
            description := "Missing retry logic or error handling detected"
            type := "fix", priority := "high", command := none }]
       else []) ++
      (if (calculateImpactSummary results).latencyIssueCount > 0 then
         [{ title := "Optimize " ++ toString (calculateImpactSummary results).latencyIssueCount
              ++ " latency issue(s)"
            description := "Consider streaming or batching to reduce latency"
            type := "fix", priority := "medium", command := none }]
       else []) ++
      (if ((results.map fun r => r.file).eraseDups).length = 1 then
         [{ title := "Analyze entire workspace"
            description := "Find issues across all files with LLM code"
            type := "analyze", priority := "medium"
            command := some "peakinfer.analyzeWorkspace" }]
       else []) ++
      (if (calculateImpactSummary results).estimatedMonthlyWaste > 100 then
         [{ title := "Learn about model selection"
            description := "Best practices for choosing the right model"
            type := "learn", priority := "low", command := none }]
       else []) := by
  unfold generateSuggestedActions
  dsimp only
  cases (calculateImpactSummary results).topIssuesBySavings with
  | nil => split_ifs <;> simp
  | cons topIssue rest => split_ifs <;> simp

/-! ### C10 -/

/-- A cost issue whose fix text names `"gpt-4o-mini"`. -/
def mentionMiniIssue : Issue :=
  { type := "cost", severity := "high", title := "Use a cheaper model"
    description := "d", impact := none
    fix := some "Switch to gpt-4o-mini", benchmark := none }

/-- C10: when a cost issue's lowercased fix text contains at least one
pricing-table key, `getRecommendedModel` returns the first such key in
the table's declaration order (every earlier key does not occur in the
fix text), bypassing the static current→recommended mapping; in
particular a fix text naming `"gpt-4o-mini"` yields the recommendation
`"gpt-4o"`, since that earlier key is a substring of the mentioned
name. -/
theorem c10_fix_text_scan_first_key :
    (∀ (currentModel : String) (issue : Issue) (f : String),
      issue.type = "cost" → issue.fix = some f → f ≠ "" →
      (∃ kv ∈ MODEL_PRICING, jsIncludes (jsToLower f) kv.1 = true) →
      ∃ l₁ kv l₂, MODEL_PRICING = l₁ ++ kv :: l₂ ∧
        getRecommendedModel currentModel issue = some kv.1 ∧
        jsIncludes (jsToLower f) kv.1 = true ∧
        ∀ kv' ∈ l₁, jsIncludes (jsToLower f) kv'.1 = false) ∧
    getRecommendedModel "gpt-4" mentionMiniIssue = some "gpt-4o" := by
  constructor
  · intro currentModel issue f _ hfix hne hex
    have hsome : (MODEL_PRICING.find? fun kv => jsIncludes (jsToLower f) kv.1).isSome
        = true := by
      rw [List.find?_isSome]
      exact hex
    obtain ⟨kv, hfind⟩ := Option.isSome_iff_exists.mp hsome
    obtain ⟨hp, l₁, l₂, heq, hprev⟩ := List.find?_eq_some.mp hfind
    refine ⟨l₁, kv, l₂, heq, ?_, hp, fun kv' hm => ?_⟩
    · unfold getRecommendedModel
      rw [hfix]
      dsimp only
      rw [if_pos hne, hfind, Option.map_some']
    · have := hprev kv' hm
      rwa [Bool.not_eq_true'] at this
  · decide

/-- Witness for C10: on the `"gpt-4"` point with fix text
`"Switch to gpt-4o-mini"`, the scan returns a key of the table that is
contained in the fix text and is preceded only by keys that are not. -/
theorem c10_witness :
    ∃ l₁ kv l₂, MODEL_PRICING = l₁ ++ kv :: l₂ ∧
      getRecommendedModel "gpt-4" mentionMiniIssue = some kv.1 ∧
      jsIncludes (jsToLower "Switch to gpt-4o-mini") kv.1 = true ∧
      ∀ kv' ∈ l₁, jsIncludes (jsToLower "Switch to gpt-4o-mini") kv'.1 = false :=
  c10_fix_text_scan_first_key.1 "gpt-4" mentionMiniIssue "Switch to gpt-4o-mini"
    rfl rfl (by decide)
    ⟨("gpt-4o", ⟨2.50, 10.00⟩), List.mem_cons_self _ _, by decide⟩

/-- Witness for C7: a name matching no rule passes through
lowercased/trimmed; a version-qualified `gpt-4o-mini` string resolves
to the table key `"gpt-4o-mini"` rather than `"gpt-4o"`. -/
theorem c7_witness :
    normalizeModelName " My-Custom-LLM " = jsTrim (jsToLower " My-Custom-LLM ") ∧
    (MODEL_PRICING.lookup
      (normalizeModelName "openai/GPT-4o-mini-2024-07-18")).isSome = true ∧
    normalizeModelName "openai/GPT-4o-mini-2024-07-18" = "gpt-4o-mini" :=
  ⟨(c7_normalizer_canonical_or_id " My-Custom-LLM ").1 (by decide),
    (c7_normalizer_canonical_or_id "openai/GPT-4o-mini-2024-07-18").2.1 (by decide),
    (c7_normalizer_canonical_or_id "openai/GPT-4o-mini-2024-07-18").2.2 (by decide)⟩

end PeakInfer
